import Mathlib

/-!
Shallow embedding of the build-session orchestrator in `src/BuildView.tsx`.

The component's `useState` fields become one record (`BuildViewState`), the
server-owned snapshot becomes `BuildSession`, and every event handler or
`useEffect` body becomes a pure function from the pre-state (plus the
transport response, supplied as an oracle argument) to the post-state
together with the list of outward side effects (`Eff`) it emits, in program
order.  Message ids and timestamps (`Date.now()`) are omitted: no branch of
the orchestration logic reads them.
-/

/-- Role of a chat entry; the source stores it in the `type` field of
`ChatMessage`. -/
inductive Role where
  | user
  | agent
deriving DecidableEq, Repr

/-- `ChatMessage` from the source, restricted to the fields the logic reads
(`type` and `content`); `id` and `timestamp` are never inspected. -/
structure ChatMessage where
  type : Role
  content : String
deriving DecidableEq, Repr

/-- One entry of `BuildSession.history`; the source only ever reads the
optional `message_to_user` field of an entry. -/
structure HistoryEntry where
  message_to_user : Option String
deriving DecidableEq, Repr

/-- `prerequisites` of an `AgentConfiguration` (all fields optional in TS). -/
structure Prerequisites where
  oauth : Option (List String)
  files : Option (List String)
  database_credentials : Option Bool
  pinecone_index_name : Option String
deriving DecidableEq, Repr

/-- `AgentConfiguration` from the source.  The TS interface has no `id`
field, but the `COMPLETED` case reads `agent_config.id` through `any`, so an
optional `id` is carried here. -/
structure AgentConfiguration where
  agent_name : String
  llm_model : String
  system_prompt : String
  tools_to_activate : List String
  prerequisites : Prerequisites
  id : Option Nat
deriving DecidableEq, Repr

/-- The `ui_request` directive of a session snapshot. -/
structure UiRequest where
  type : String
deriving DecidableEq, Repr

/-- `BuildSession` snapshot as the server returns it.  `agent_config` is
`any` in TS and may be absent, hence `Option`. -/
structure BuildSession where
  build_id : String
  state : String
  original_prompt : String
  agent_config : Option AgentConfiguration
  history : List HistoryEntry
  ui_request : Option UiRequest
deriving DecidableEq, Repr

/-- Payload of the create-agent persistence call (`POST /agents`), as
assembled by `saveAgentConfig` / `handleProjectApproval`.  The `||` defaults
of the source become emptiness tests, since `""` is the only falsy string
value these fields can take. -/
structure AgentData where
  user_email : String
  name : String
  system_prompt : String
  tools_to_activate : List String
  prerequisites : Prerequisites
  llm_model : String
  pinecone_index_name : Option String
deriving DecidableEq, Repr

/-- Requests the component sends to the backend. -/
inductive ApiCall where
  | createBuild (prompt : String)
  | continueBuild (buildId : String) (message : Option String)
      (connectionString : Option String)
  | uploadFile (buildId : String)
  | architect (prompt : String)
  | createAgent (data : AgentData)
  | analyze (prompt : String)
deriving DecidableEq, Repr

/-- Outward side effects of the component: backend calls, the progress
callbacks handed down as props, and `alert`. -/
inductive Eff where
  | call (c : ApiCall)
  | progressUpdate (p : ℚ)
  | buildComplete
  | alertUser (text : String)
deriving DecidableEq, Repr

/-- React-Flow node payload (`data` field). -/
structure NodeData where
  label : String
  icon : String
  type : String
  isLoading : Bool
deriving DecidableEq, Repr

/-- React-Flow node as built by the architecture generators. -/
structure FlowNode where
  id : String
  type : String
  posX : Nat
  posY : Nat
  data : NodeData
deriving DecidableEq, Repr

/-- React-Flow edge as built in `handleProjectApproval`. -/
structure FlowEdge where
  id : String
  source : String
  target : String
  type : String
  stroke : String
  strokeWidth : Nat
deriving DecidableEq, Repr

/-- The database-credential form fields. -/
structure ConnectionConfig where
  hostname : String
  username : String
  password : String
  database : String
  port : String
deriving DecidableEq, Repr

/-- The `useState` fields of `BuildView` that the orchestration logic reads
or writes. -/
structure BuildViewState where
  buildSession : Option BuildSession
  chatMessages : List ChatMessage
  newMessage : String
  showThinking : Bool
  showProjectPlan : Bool
  projectApproved : Bool
  showArchitecture : Bool
  showConnectionModal : Bool
  connectionConfig : ConnectionConfig
  waitingForClarification : Bool
  clarificationQuestions : List String
  currentQuestionIndex : Nat
  agentConfig : Option AgentConfiguration
  savedAgentId : Option Nat
  nodes : List FlowNode
  edges : List FlowEdge
deriving DecidableEq, Repr

/-- The initial values the component's `useState` calls install. -/
def initialState : BuildViewState where
  buildSession := none
  chatMessages := []
  newMessage := ""
  showThinking := true
  showProjectPlan := false
  projectApproved := false
  showArchitecture := false
  showConnectionModal := false
  connectionConfig := ⟨"", "", "", "", "5432"⟩
  waitingForClarification := false
  clarificationQuestions := []
  currentQuestionIndex := 0
  agentConfig := none
  savedAgentId := none
  nodes := []
  edges := []

/-- `buildSession.history[buildSession.history.length - 1]?.message_to_user`:
the newest history entry's optional message. -/
def lastMessageOf (s : BuildSession) : Option String :=
  (s.history.getLast?).bind HistoryEntry.message_to_user

/-- The transcript-reconciliation step of the `[buildSession]` effect: the
newest server message is appended as an agent message unless it equals the
content of the last transcript entry.  The `if (lastMessage)` truthiness
test of the source skips both an absent message and the empty string. -/
def appendArchitectMessage (prev : List ChatMessage)
    (lastMessage : Option String) : List ChatMessage :=
  match lastMessage with
  | none => prev
  | some m =>
    if m = "" then prev
    else if (prev.getLast?).map ChatMessage.content ≠ some m then
      prev ++ [{ type := Role.agent, content := m }]
    else prev

/-- Segment containment on lists, used to model JS `String.includes`. -/
def segContains (pat : List Char) : List Char → Bool
  | [] => pat.isEmpty
  | c :: rest => pat.isPrefixOf (c :: rest) || segContains pat rest

/-- JS `s.includes(pat)`. -/
def strContains (s pat : String) : Bool :=
  segContains pat.toList s.toList

/-- The payload `saveAgentConfig` (and the inline copy in
`handleProjectApproval`) builds for `POST /agents`. -/
def agentDataOf (config : AgentConfiguration) : AgentData where
  user_email := "fahadpatel5700@gmail.com"
  name := if config.agent_name = "" then "New Agent" else config.agent_name
  system_prompt :=
    if config.system_prompt = "" then "You are a helpful assistant."
    else config.system_prompt
  tools_to_activate := config.tools_to_activate
  prerequisites := config.prerequisites
  llm_model := if config.llm_model = "" then "gpt-4o" else config.llm_model
  pinecone_index_name := config.prerequisites.pinecone_index_name

/-- Effects of `saveAgentConfig config`.  When the snapshot carries no
configuration, the property accesses on `null` throw inside the `try` before
the request is issued, so no call goes out. -/
def saveAgentConfigEffs (config : Option AgentConfiguration) : List Eff :=
  match config with
  | none => []
  | some c => [Eff.call (ApiCall.createAgent (agentDataOf c))]

/-- The `ui_request` dispatch of the `[buildSession]` effect. -/
def applyUiRequest (st : BuildViewState) (s : BuildSession) : BuildViewState :=
  match s.ui_request with
  | none => st
  | some u =>
    if u.type = "REQUEST_DB_CREDENTIALS" then
      { st with showConnectionModal := true }
    else st

/-- The `switch (buildSession.state)` dispatch of the `[buildSession]`
effect, returning the new state and the effects it emits in program order.
Unknown states fall through the switch and change nothing. -/
def stateDispatch (st : BuildViewState) (s : BuildSession) :
    BuildViewState × List Eff :=
  match s.state with
  | "WAITING_FOR_USER_INPUT" => ({ st with showThinking := false }, [])
  | "CONFIGURATION_PROPOSED" => ({ st with showThinking := false }, [])
  | "CONFIGURATION_FINALIZED" =>
    ({ st with showThinking := false, agentConfig := s.agent_config,
               showArchitecture := true },
     saveAgentConfigEffs s.agent_config ++ [Eff.progressUpdate 0])
  | "FAILED" => ({ st with showThinking := false }, [])
  | "REQUEST_DB_CREDENTIALS" => ({ st with showConnectionModal := true }, [])
  | "COMPLETED" =>
    ({ st with showConnectionModal := false, agentConfig := s.agent_config,
               savedAgentId := s.agent_config.bind AgentConfiguration.id,
               showArchitecture := true },
     [Eff.progressUpdate 0])
  | "DB_CONNECTION_FAILED" =>
    ({ st with showConnectionModal := true },
     [Eff.alertUser
        "Database connection failed. Please check your credentials and try again."])
  | _ => (st, [])

/-- One firing of the `useEffect [buildSession]` body on a freshly replaced
snapshot: transcript reconciliation, then `ui_request` dispatch, then the
state switch. -/
def processSnapshot (st : BuildViewState) (s : BuildSession) :
    BuildViewState × List Eff :=
  let st1 := { st with
    chatMessages := appendArchitectMessage st.chatMessages (lastMessageOf s) }
  let st2 := applyUiRequest st1 s
  stateDispatch st2 s

/-- Processing a sequence of snapshot replacements, accumulating effects. -/
def processTrace (st : BuildViewState) :
    List BuildSession → BuildViewState × List Eff
  | [] => (st, [])
  | s :: rest =>
    let p := processSnapshot st s
    let q := processTrace p.1 rest
    (q.1, p.2 ++ q.2)

/-- Recognizer for the create-agent persistence call. -/
def isCreateAgentCall : Eff → Bool
  | Eff.call (ApiCall.createAgent _) => true
  | _ => false

/-- Recognizer for the continue-session call. -/
def isContinueCall : Eff → Bool
  | Eff.call (ApiCall.continueBuild _ _ _) => true
  | _ => false

/-- Number of create-agent calls in an effect list. -/
def createAgentCount (effs : List Eff) : Nat :=
  (effs.filter isCreateAgentCall).length

/-- Number of continue-session calls in an effect list. -/
def continueCallCount (effs : List Eff) : Nat :=
  (effs.filter isContinueCall).length

/-- `generateAgentSuccessMessage`: the dynamically composed completion
announcement, dispatching on the OAuth connection list and tool set in the
source's fixed priority order. -/
def generateAgentSuccessMessage (agentConfig : Option AgentConfiguration) :
    String :=
  match agentConfig with
  | none => "Your AI agent is ready! You can now test and deploy it."
  | some cfg =>
    let connections := cfg.prerequisites.oauth.getD []
    let pick : String × List String :=
      if connections.contains "gmail" || connections.contains "google" then
        ("Email Management", ["Gmail integration", "email automation"])
      else if connections.contains "slack" then
        ("Communication", ["Slack integration", "team collaboration"])
      else if connections.contains "jira" then
        ("Project Management", ["Jira integration", "issue tracking"])
      else if cfg.tools_to_activate.contains "supabase_query" then
        ("Database", ["database queries", "data analysis"])
      else
        ("General Purpose AI",
         if connections.length > 0 then connections
         else ["intelligent conversation"])
    let capabilityText :=
      if pick.2.length > 0 then
        " with " ++ String.intercalate ", " pick.2 ++ " capabilities"
      else ""
    "Your " ++ pick.1 ++ " agent is ready! You can now test it" ++
      capabilityText ++ " and start leveraging its features."

/-- One firing of the `useEffect [isAgentReady, agentConfig]` body: append
the completion announcement unless some transcript entry already contains
the substring `Agent built successfully`. -/
def completionEffect (isAgentReady : Bool)
    (agentConfig : Option AgentConfiguration)
    (prev : List ChatMessage) : List ChatMessage :=
  if isAgentReady then
    if prev.any (fun msg => strContains msg.content "Agent built successfully")
    then prev
    else prev ++
      [{ type := Role.agent,
         content := generateAgentSuccessMessage agentConfig }]
  else prev

/-- `handleClarificationAnswer`: append the question/answer pair to the
transcript, then either advance the cursor or, on the last answer, exit
clarification mode and issue one re-analysis call.  The local `responses`
object is rebuilt from scratch on every invocation, exactly as in the
source, so it only ever holds the current pair.  The source indexes
`clarificationQuestions[currentQuestionIndex]` unconditionally; the cursor
is in range whenever the clarification loop is active. -/
def handleClarificationAnswer (userPrompt : String) (st : BuildViewState)
    (answer : String) : BuildViewState × List Eff :=
  let currentQuestion := st.clarificationQuestions.getD st.currentQuestionIndex ""
  let st1 := { st with chatMessages := st.chatMessages ++
    ([{ type := Role.agent,
        content := "To better understand your requirements, I need to know: "
          ++ currentQuestion },
      { type := Role.user, content := answer }] : List ChatMessage) }
  let responses : List (String × String) := [(currentQuestion, answer)]
  if st.currentQuestionIndex + 1 < st.clarificationQuestions.length then
    ({ st1 with currentQuestionIndex := st.currentQuestionIndex + 1 }, [])
  else
    let allResponses := responses
    let updatedPrompt := userPrompt ++ "\n\nUser clarifications:\n" ++
      String.intercalate "\n"
        (allResponses.map (fun qa => qa.1 ++ ": " ++ qa.2))
    ({ st1 with waitingForClarification := false, currentQuestionIndex := 0 },
     [Eff.call (ApiCall.analyze updatedPrompt)])

/-- Feeding a list of answers to the clarification sequencer in order. -/
def runClarification (userPrompt : String) :
    BuildViewState → List String → BuildViewState × List Eff
  | st, [] => (st, [])
  | st, a :: rest =>
    let p := handleClarificationAnswer userPrompt st a
    let q := runClarification userPrompt p.1 rest
    (q.1, p.2 ++ q.2)

/-- The five build steps; only their number feeds the progress increment. -/
def buildSteps : List String :=
  ["Finalizing architecture...", "Setting up integrations...",
   "Generating agent logic...", "Configuring workflows...",
   "Finalizing deployment..."]

/-- `100 / buildSteps.length / 10`, the per-tick progress increment. -/
def progressIncrement : ℚ := 100 / (buildSteps.length : ℚ) / 10

/-- The interval body of the progress effect, run while the interval is
live: each tick either reports the incremented progress and keeps ticking,
or (on reaching 100) clears the interval, signals completion once, and
reports exactly 100.  `fuel` bounds the number of ticks modelled; it is
irrelevant once the run completes.  Returns the reported progress values in
order, paired with the number of completion signals. -/
def runTicks : Nat → ℚ → List ℚ × Nat
  | 0, _ => ([], 0)
  | fuel + 1, p =>
    let newProgress := p + progressIncrement
    if newProgress ≥ 100 then ([100], 1)
    else
      let r := runTicks fuel newProgress
      (newProgress :: r.1, r.2)

/-- Interval bookkeeping of the progress effect: `live` holds the intervals
currently running, `registered` the one whose `clearInterval` is the
currently registered effect cleanup. -/
structure SimTimers where
  live : List Nat
  registered : Option Nat
  fresh : Nat
deriving DecidableEq, Repr

/-- Component state together with the timer bookkeeping and the
parent-reflected `buildProgress` prop. -/
structure OrchState where
  ui : BuildViewState
  timers : SimTimers
  progress : ℚ
deriving DecidableEq, Repr

/-- Events that drive the orchestrator: a snapshot replacement firing the
`[buildSession]` effect, the progress effect re-firing (React runs the
previous cleanup — `clearInterval` on the registered interval — before the
body, which starts a new interval only when `isBuilding` holds), and a tick
of a live interval. -/
inductive OrchEvent where
  | snapshotArrives (s : BuildSession)
  | progressEffectFires (isBuilding : Bool)
  | timerTick
deriving DecidableEq, Repr

/-- One orchestrator step. -/
def orchStep (st : OrchState) : OrchEvent → OrchState × List Eff
  | OrchEvent.snapshotArrives s =>
    let p := processSnapshot st.ui s
    ({ st with ui := p.1 }, p.2)
  | OrchEvent.progressEffectFires isBuilding =>
    let cleaned :=
      match st.timers.registered with
      | some i => st.timers.live.filter (fun j => j ≠ i)
      | none => st.timers.live
    if isBuilding then
      ({ st with timers :=
          ({ live := cleaned ++ [st.timers.fresh],
             registered := some st.timers.fresh,
             fresh := st.timers.fresh + 1 } : SimTimers) }, [])
    else
      ({ st with timers :=
          ({ live := cleaned, registered := none,
             fresh := st.timers.fresh } : SimTimers) }, [])
  | OrchEvent.timerTick =>
    if st.timers.live.isEmpty then (st, [])
    else
      let newProgress := st.progress + progressIncrement
      if newProgress ≥ 100 then
        ({ st with timers := { st.timers with live := [] }, progress := 100 },
         [Eff.buildComplete, Eff.progressUpdate 100])
      else
        ({ st with progress := newProgress },
         [Eff.progressUpdate newProgress])

/-- Running the orchestrator over an event sequence. -/
def runOrch (st : OrchState) : List OrchEvent → OrchState × List Eff
  | [] => (st, [])
  | e :: rest =>
    let p := orchStep st e
    let q := runOrch p.1 rest
    (q.1, p.2 ++ q.2)

/-- The orchestrator's start state: no timer, progress 0. -/
def initialOrchState : OrchState where
  ui := initialState
  timers := { live := [], registered := none, fresh := 0 }
  progress := 0

/-- Node constructor matching the object literals of the source. -/
def mkFlowNode (id label icon ty : String) (x y : Nat) : FlowNode where
  id := id
  type := "custom"
  posX := x
  posY := y
  data := { label := label, icon := icon, type := ty, isLoading := true }

/-- `generateGenericArchitecture`: always an OpenAI node, then one node per
recognized connection (google, jira, slack — in that fixed order,
independent of the input order), then a memory node.  Unrecognized
connections contribute nothing. -/
def generateGenericArchitecture (requiredConnections : List String) :
    List FlowNode :=
  let n0 := [mkFlowNode "openai" "OpenAI" "/images/openai-icon.png" "openai" 20 20]
  let x0 := 120
  let p1 :=
    if requiredConnections.contains "google" then
      (n0 ++ [mkFlowNode "google" "Google" "/images/google-icon.png" "google" x0 20],
       x0 + 100)
    else (n0, x0)
  let p2 :=
    if requiredConnections.contains "jira" then
      (p1.1 ++ [mkFlowNode "jira" "Jira" "/images/jira-icon.png" "jira" p1.2 20],
       p1.2 + 100)
    else p1
  let p3 :=
    if requiredConnections.contains "slack" then
      (p2.1 ++ [mkFlowNode "slack" "Slack" "/images/slack-icon.png" "slack" p2.2 20],
       p2.2 + 100)
    else p2
  p3.1 ++ [mkFlowNode "memory" "Memory" "/images/memory-icon.png" "memory" 70 80]

/-- The edge construction at the end of `handleProjectApproval`: every
non-openai node id gets an edge to `openai`, then every non-memory node id
gets an edge to `memory`, in input order. -/
def mkApprovalEdges (nodeIds : List String) : List FlowEdge :=
  (nodeIds.filter (fun i => i ≠ "openai")).map
    (fun i => { id := i ++ "-openai", source := i, target := "openai",
                type := "custom", stroke := "#6B7280", strokeWidth := 3 })
  ++ (nodeIds.filter (fun i => i ≠ "memory")).map
    (fun i => { id := i ++ "-memory", source := i, target := "memory",
                type := "custom", stroke := "#6B7280", strokeWidth := 3 })

/-- Clear the loading flag on every node (`setNodes(prev => prev.map ...)`). -/
def clearLoading (ns : List FlowNode) : List FlowNode :=
  ns.map (fun n => { n with data := { n.data with isLoading := false } })

/-- The tail of `handleProjectApproval` reached after the try/catch: the
functional `setNodes` update applies to the current nodes, but the edge
construction reads the `nodes` binding captured at render time —
`entryNodes`, the state at the start of the handler — not the nodes just
installed. -/
def finishApprovalGraph (entryNodes : List FlowNode) (st : BuildViewState) :
    BuildViewState :=
  { st with nodes := clearLoading st.nodes,
            edges := mkApprovalEdges (entryNodes.map FlowNode.id) }

/-- `handleProjectApproval`.  `canApprove` is the typing-finished guard;
`architectResp` and `saveResp` are the transport oracles for the
`/agents/architect` and `/agents` calls; `hasTemplateMatch` selects the
(inactive) template branch.  Effects are listed in request order; a call
whose response is an error was still issued. -/
def handleProjectApproval (st : BuildViewState) (canApprove : Bool)
    (userPrompt : String) (architectResp : Except Unit AgentConfiguration)
    (saveResp : Except Unit Nat) (hasTemplateMatch : Bool) :
    BuildViewState × List Eff :=
  if canApprove = false then (st, [])
  else
    let entryNodes := st.nodes
    let st0 := { st with
      projectApproved := true
      showProjectPlan := false
      showArchitecture := true
      chatMessages := st.chatMessages ++
        ([{ type := Role.user,
            content := "Yes, please proceed with the build!" }] : List ChatMessage) }
    let archEff := [Eff.call (ApiCall.architect userPrompt)]
    match architectResp with
    | Except.error _ =>
      -- the outer catch only logs; the handler continues to the edge code
      (finishApprovalGraph entryNodes st0, archEff)
    | Except.ok config =>
      let st1 := { st0 with agentConfig := some config }
      if config.prerequisites.database_credentials.getD false then
        -- gate: open the modal and return before any save
        ({ st1 with showConnectionModal := true }, archEff)
      else
        let saveEff := [Eff.call (ApiCall.createAgent (agentDataOf config))]
        match saveResp with
        | Except.error _ =>
          -- inner catch returns, skipping the edge code
          (st1, archEff ++ saveEff)
        | Except.ok agentId =>
          let st2 := { st1 with savedAgentId := some agentId,
                                showArchitecture := true }
          let st3 :=
            if hasTemplateMatch then st2
            else { st2 with nodes :=
              generateGenericArchitecture (config.prerequisites.oauth.getD []) }
          (finishApprovalGraph entryNodes st3,
           archEff ++ saveEff ++ [Eff.progressUpdate 0])

/-- `startBuild` (the mount effect): a no-op when the prompt is empty or a
session already exists; otherwise `POST /builds` and, only on success,
install the returned snapshot. -/
def startBuild (userPrompt : String) (cur : Option BuildSession)
    (resp : Except Unit BuildSession) : Option BuildSession × List Eff :=
  if userPrompt = "" ∨ cur.isSome then (cur, [])
  else
    match resp with
    | Except.ok session => (some session, [Eff.call (ApiCall.createBuild userPrompt)])
    | Except.error _ => (cur, [Eff.call (ApiCall.createBuild userPrompt)])

/-- `handleSendMessage`: append the user message, clear the input, show the
thinking indicator, `POST continue`; only a successful response replaces the
stored snapshot. -/
def handleSendMessage (st : BuildViewState)
    (resp : Except Unit BuildSession) : BuildViewState × List Eff :=
  match st.buildSession with
  | none => (st, [])
  | some session =>
    if st.newMessage.trim = "" then (st, [])
    else
      let content := st.newMessage.trim
      let st1 := { st with
        chatMessages := st.chatMessages ++ [{ type := Role.user, content := content }],
        newMessage := "", showThinking := true }
      let eff := [Eff.call (ApiCall.continueBuild session.build_id (some content) none)]
      match resp with
      | Except.ok updated => ({ st1 with buildSession := some updated }, eff)
      | Except.error _ => (st1, eff)

/-- The connection string `handleConnectionSubmit` assembles. -/
def buildConnString (c : ConnectionConfig) : String :=
  "postgresql://" ++ c.username ++ ":" ++ c.password ++ "@" ++ c.hostname ++
    ":" ++ c.port ++ "/" ++ c.database

/-- `handleConnectionSubmit`: `POST continue` with the connection string;
only a successful response replaces the stored snapshot, an error alerts and
leaves it untouched. -/
def handleConnectionSubmit (st : BuildViewState)
    (resp : Except Unit BuildSession) : BuildViewState × List Eff :=
  match st.buildSession with
  | none => (st, [Eff.alertUser "Error: Build session not found."])
  | some session =>
    let eff := [Eff.call (ApiCall.continueBuild session.build_id none
      (some (buildConnString st.connectionConfig)))]
    match resp with
    | Except.ok updated => ({ st with buildSession := some updated }, eff)
    | Except.error _ => (st, eff ++ [Eff.alertUser "An error occurred"])

/-- The `FileUploadModal.onUpload` callback: upload one file; only a
successful response replaces the stored snapshot. -/
def handleFileUpload (st : BuildViewState)
    (resp : Except Unit BuildSession) : BuildViewState × List Eff :=
  match st.buildSession with
  | none => (st, [])
  | some session =>
    let eff := [Eff.call (ApiCall.uploadFile session.build_id)]
    match resp with
    | Except.ok updated => ({ st with buildSession := some updated }, eff)
    | Except.error _ => (st, eff)

/-- Predicate marking snapshots whose processing issues a create-agent call:
state `CONFIGURATION_FINALIZED` with a configuration present. -/
def isFinalizedSave (s : BuildSession) : Bool :=
  s.state == "CONFIGURATION_FINALIZED" && s.agent_config.isSome

/-- A configuration with a Google OAuth connection and no database
prerequisite. -/
def sampleGoogleConfig : AgentConfiguration where
  agent_name := "Mail Agent"
  llm_model := "gpt-4o"
  system_prompt := "You handle email."
  tools_to_activate := []
  prerequisites :=
    { oauth := some ["google"], files := none,
      database_credentials := none, pinecone_index_name := none }
  id := none

/-- A configuration that declares the database-credential prerequisite. -/
def dbConfig : AgentConfiguration where
  agent_name := "DB Agent"
  llm_model := "gpt-4o"
  system_prompt := "You answer questions over the database."
  tools_to_activate := ["supabase_query"]
  prerequisites :=
    { oauth := none, files := none,
      database_credentials := some true, pinecone_index_name := none }
  id := none

/-- A finalized snapshot carrying `sampleGoogleConfig`. -/
def finalizedGoogleSnap : BuildSession where
  build_id := "b1"
  state := "CONFIGURATION_FINALIZED"
  original_prompt := "automate my email digests"
  agent_config := some sampleGoogleConfig
  history := []
  ui_request := none

/-- A finalized snapshot carrying `dbConfig`. -/
def finalizedDbSnap : BuildSession where
  build_id := "b1"
  state := "CONFIGURATION_FINALIZED"
  original_prompt := "answer questions over my database"
  agent_config := some dbConfig
  history := []
  ui_request := none

/-- A `DB_CONNECTION_FAILED` snapshot. -/
def dbFailedSnap : BuildSession where
  build_id := "b1"
  state := "DB_CONNECTION_FAILED"
  original_prompt := "answer questions over my database"
  agent_config := some dbConfig
  history := []
  ui_request := none

/-- A terminal `FAILED` snapshot. -/
def failedSnap : BuildSession where
  build_id := "b1"
  state := "FAILED"
  original_prompt := "automate my email digests"
  agent_config := none
  history := []
  ui_request := none

/-- A snapshot whose newest history entry carries a server message. -/
def sampleMsgSnap : BuildSession where
  build_id := "b1"
  state := "WAITING_FOR_USER_INPUT"
  original_prompt := "automate my email digests"
  agent_config := none
  history := [{ message_to_user := some "What should the digest contain?" }]
  ui_request := none

/-- A snapshot whose newest server message is the literal `hello`. -/
def echoSnap : BuildSession where
  build_id := "b1"
  state := "WAITING_FOR_USER_INPUT"
  original_prompt := "hello"
  agent_config := none
  history := [{ message_to_user := some "hello" }]
  ui_request := none

/-- Clarification-mode state with a two-question round pending. -/
def clarificationStart : BuildViewState :=
  { initialState with
    waitingForClarification := true
    clarificationQuestions := ["q1", "q2"]
    currentQuestionIndex := 0 }

/-! ## Transcript reconciliation -/

theorem applyUiRequest_chatMessages (st : BuildViewState) (s : BuildSession) :
    (applyUiRequest st s).chatMessages = st.chatMessages := by
  unfold applyUiRequest
  split
  · rfl
  · split <;> rfl

theorem stateDispatch_chatMessages (st : BuildViewState) (s : BuildSession) :
    ((stateDispatch st s).1).chatMessages = st.chatMessages := by
  unfold stateDispatch
  split <;> rfl

theorem processSnapshot_chatMessages (st : BuildViewState) (s : BuildSession) :
    ((processSnapshot st s).1).chatMessages =
      appendArchitectMessage st.chatMessages (lastMessageOf s) := by
  simp only [processSnapshot]
  rw [stateDispatch_chatMessages, applyUiRequest_chatMessages]

theorem appendArchitect_keep (c : List ChatMessage) (m : String) (hm : m ≠ "")
    (h : (c.getLast?).map ChatMessage.content = some m) :
    appendArchitectMessage c (some m) = c := by
  simp [appendArchitectMessage, hm, h]

theorem appendArchitect_add (c : List ChatMessage) (m : String) (hm : m ≠ "")
    (h : (c.getLast?).map ChatMessage.content ≠ some m) :
    appendArchitectMessage c (some m) =
      c ++ [{ type := Role.agent, content := m }] := by
  simp [appendArchitectMessage, hm, h]

theorem appendArchitect_idem (c : List ChatMessage) (L : Option String) :
    appendArchitectMessage (appendArchitectMessage c L) L =
      appendArchitectMessage c L := by
  cases L with
  | none => rfl
  | some m =>
    by_cases hm : m = ""
    · simp [appendArchitectMessage, hm]
    · by_cases hl : (c.getLast?).map ChatMessage.content = some m
      · rw [appendArchitect_keep c m hm hl, appendArchitect_keep c m hm hl]
      · rw [appendArchitect_add c m hm hl]
        apply appendArchitect_keep _ _ hm
        rw [List.getLast?_concat]
        rfl

/-- Claim C3: applying two consecutive snapshot replacements whose newest
history entries carry the same `message_to_user` yields the same transcript
as applying the first alone — the idempotent-append contract of the
reconciler. -/
theorem C3_transcript_idempotent (st : BuildViewState) (s₁ s₂ : BuildSession)
    (h : lastMessageOf s₁ = lastMessageOf s₂) :
    ((processSnapshot (processSnapshot st s₁).1 s₂).1).chatMessages =
      ((processSnapshot st s₁).1).chatMessages := by
  rw [processSnapshot_chatMessages, processSnapshot_chatMessages, ← h,
    appendArchitect_idem]

/-- Witness for C3 at a concrete repeated snapshot. -/
theorem C3_witness :
    ((processSnapshot (processSnapshot initialState sampleMsgSnap).1
        sampleMsgSnap).1).chatMessages =
      ((processSnapshot initialState sampleMsgSnap).1).chatMessages :=
  C3_transcript_idempotent initialState sampleMsgSnap sampleMsgSnap rfl

/-- Claim C10: on a snapshot replacement carrying a (non-empty) newest
server message `m`, the transcript gains an agent entry with content `m`
exactly when the last transcript entry's content differs from `m` — the
role of that last entry is never consulted, so a server message equal to
the preceding user message is suppressed, while one equal only to an
earlier, non-last entry is appended again. -/
theorem C10_dedup_content_only (st : BuildViewState) (s : BuildSession)
    (m : String) (t : List ChatMessage) (x : ChatMessage)
    (hm : m ≠ "") (hlast : lastMessageOf s = some m)
    (hchat : st.chatMessages = t ++ [x]) :
    ((processSnapshot st s).1).chatMessages =
      if x.content = m then t ++ [x]
      else t ++ [x, { type := Role.agent, content := m }] := by
  rw [processSnapshot_chatMessages, hlast, hchat]
  by_cases hx : x.content = m
  · rw [if_pos hx]
    apply appendArchitect_keep _ _ hm
    rw [List.getLast?_concat]
    simp [hx]
  · rw [if_neg hx]
    rw [appendArchitect_add _ _ hm]
    · simp
    · rw [List.getLast?_concat]
      simpa using hx

/-- Witness for C10: a server message echoing the immediately preceding
user message is suppressed. -/
theorem C10_witness :
    ((processSnapshot
        { initialState with
            chatMessages := [{ type := Role.user, content := "hello" }] }
        echoSnap).1).chatMessages =
      [{ type := Role.user, content := "hello" }] := by
  have h := C10_dedup_content_only
    { initialState with
        chatMessages := [{ type := Role.user, content := "hello" }] }
    echoSnap "hello" [] { type := Role.user, content := "hello" }
    (by decide) rfl rfl
  simpa using h

/-! ## Create-agent persistence -/

theorem createAgentCount_append (a b : List Eff) :
    createAgentCount (a ++ b) = createAgentCount a + createAgentCount b := by
  simp [createAgentCount, List.filter_append]

theorem stateDispatch_createAgentCount (st : BuildViewState) (s : BuildSession) :
    createAgentCount (stateDispatch st s).2 =
      if isFinalizedSave s then 1 else 0 := by
  unfold stateDispatch
  split <;>
    cases hc : s.agent_config <;>
      simp_all [isFinalizedSave, saveAgentConfigEffs, createAgentCount,
        isCreateAgentCall]

theorem processSnapshot_createAgentCount (st : BuildViewState)
    (s : BuildSession) :
    createAgentCount (processSnapshot st s).2 =
      if isFinalizedSave s then 1 else 0 := by
  simp only [processSnapshot]
  rw [stateDispatch_createAgentCount]

/-- Claim C1 (amended): the `[buildSession]` effect issues one create-agent
persistence call per snapshot replacement whose state is
`CONFIGURATION_FINALIZED` (and which carries a configuration) — so a trace
in which the finalized state appears N times issues N save calls, and the
save is issued exactly once only when the finalized state appears in
exactly one snapshot. -/
theorem C1_save_per_finalized_snapshot (st : BuildViewState)
    (trace : List BuildSession) :
    createAgentCount (processTrace st trace).2 =
      (trace.filter isFinalizedSave).length := by
  induction trace generalizing st with
  | nil => rfl
  | cons s rest ih =>
    simp only [processTrace]
    rw [createAgentCount_append, processSnapshot_createAgentCount, ih,
      List.filter_cons]
    by_cases h : isFinalizedSave s <;> simp [h, Nat.add_comm]

/-- Counterexample to claim C1 as stated: two consecutive snapshots in the
finalized state issue two create-agent calls, not one. -/
theorem C1_counterexample_double_save :
    createAgentCount
      (processTrace initialState [finalizedGoogleSnap, finalizedGoogleSnap]).2
      ≠ 1 := by decide

/-! ## Clarification sequencer and completion announcement -/

/-- Claim C2 (code behaviour at the failing input): with the two-question
round `[q1, q2]` answered in order by `[a1, a2]`, the sequencer does exit
clarification mode exactly on the second answer (it is still waiting after
the first) and issues exactly one re-analysis call — but the augmented
prompt carries only the final pair `q2: a2`; the pair `q1: a1` is absent,
because `handleClarificationAnswer` rebuilds its `responses` accumulator
from scratch on every answer. -/
theorem C2_last_answer_only_eval :
    (runClarification "p" clarificationStart ["a1"]).1.waitingForClarification
        = true ∧
    (runClarification "p" clarificationStart
        ["a1", "a2"]).1.waitingForClarification = false ∧
    (runClarification "p" clarificationStart ["a1", "a2"]).2 =
      [Eff.call (ApiCall.analyze "p\n\nUser clarifications:\nq2: a2")] ∧
    strContains "p\n\nUser clarifications:\nq2: a2" "q2: a2" = true ∧
    strContains "p\n\nUser clarifications:\nq2: a2" "q1: a1" = false := by
  decide

/-- Claim C4 (code behaviour at the failing input): two firings of the
agent-ready effect — first before a configuration is stored, then after —
append two completion announcements, because no generated announcement
contains the guard substring `Agent built successfully`. -/
theorem C4_duplicate_completion_eval :
    (completionEffect true (some sampleGoogleConfig)
        (completionEffect true none [])).length = 2 ∧
    strContains (generateAgentSuccessMessage none)
        "Agent built successfully" = false ∧
    strContains (generateAgentSuccessMessage (some sampleGoogleConfig))
        "Agent built successfully" = false := by
  decide

/-! ## Credential gate -/

theorem stateDispatch_dbFailed (st : BuildViewState) (s : BuildSession)
    (h : s.state = "DB_CONNECTION_FAILED") :
    stateDispatch st s =
      ({ st with showConnectionModal := true },
       [Eff.alertUser
          "Database connection failed. Please check your credentials and try again."]) := by
  unfold stateDispatch
  split <;> simp_all

/-- Claim C5 (amended): the credential gate holds on the approval path and
on connection failure — when the architect returns a configuration with
`database_credentials = true`, `handleProjectApproval` opens the credential
modal and issues no create-agent call, and a `DB_CONNECTION_FAILED`
snapshot re-opens the modal without issuing a create-agent call.  (The
`CONFIGURATION_FINALIZED` snapshot handler, by contrast, saves
unconditionally; see the counterexample.) -/
theorem C5_gate_on_approval_path (st : BuildViewState) (p : String)
    (saveResp : Except Unit Nat) (tm : Bool) (c : AgentConfiguration)
    (s : BuildSession)
    (hdb : c.prerequisites.database_credentials = some true)
    (hs : s.state = "DB_CONNECTION_FAILED") :
    createAgentCount
        (handleProjectApproval st true p (Except.ok c) saveResp tm).2 = 0 ∧
    ((handleProjectApproval st true p (Except.ok c) saveResp tm).1).showConnectionModal = true ∧
    createAgentCount (processSnapshot st s).2 = 0 ∧
    ((processSnapshot st s).1).showConnectionModal = true := by
  refine ⟨?_, ?_, ?_, ?_⟩
  · simp [handleProjectApproval, hdb, createAgentCount, isCreateAgentCall]
  · simp [handleProjectApproval, hdb]
  · simp only [processSnapshot]
    rw [stateDispatch_dbFailed _ s hs]
    simp [createAgentCount, isCreateAgentCall]
  · simp only [processSnapshot]
    rw [stateDispatch_dbFailed _ s hs]

/-- Witness for C5 at concrete inputs. -/
theorem C5_gate_witness :
    createAgentCount
        (handleProjectApproval initialState true "p" (Except.ok dbConfig)
          (Except.ok 1) false).2 = 0 ∧
    ((processSnapshot initialState dbFailedSnap).1).showConnectionModal
        = true := by
  have h := C5_gate_on_approval_path initialState "p" (Except.ok 1) false
    dbConfig dbFailedSnap rfl rfl
  exact ⟨h.1, h.2.2.2⟩

/-- Counterexample to claim C5 as stated: a `CONFIGURATION_FINALIZED`
snapshot whose configuration demands database credentials triggers the
create-agent call immediately — one save call, zero continue calls. -/
theorem C5_counterexample_unconditional_save :
    dbConfig.prerequisites.database_credentials = some true ∧
    createAgentCount (processTrace initialState [finalizedDbSnap]).2 = 1 ∧
    continueCallCount (processTrace initialState [finalizedDbSnap]).2 = 0 := by
  decide

/-! ## Progress-interval lifecycle -/

/-- Invariant tying the live intervals to the registered cleanup: at most
the interval whose `clearInterval` is registered as the current effect
cleanup can be running. -/
def timersInv (st : OrchState) : Prop :=
  st.timers.live = [] ∨
    ∃ i, st.timers.registered = some i ∧ st.timers.live = [i]

theorem orchStep_timersInv (st : OrchState) (ev : OrchEvent)
    (h : timersInv st) : timersInv (orchStep st ev).1 := by
  cases ev with
  | snapshotArrives s =>
    simpa [orchStep, timersInv] using h
  | progressEffectFires b =>
    rcases h with h0 | ⟨i, hreg, hlive⟩
    · cases hr : st.timers.registered <;> cases b <;>
        simp [orchStep, timersInv, h0, hr]
    · cases b <;> simp [orchStep, timersInv, hreg, hlive]
  | timerTick =>
    by_cases he : st.timers.live.isEmpty
    · simpa [orchStep, he] using h
    · by_cases hp : st.progress + progressIncrement ≥ 100
      · left
        simp [orchStep, he, hp]
      · simpa [orchStep, he, hp] using h

theorem runOrch_timersInv (evs : List OrchEvent) :
    ∀ st : OrchState, timersInv st → timersInv (runOrch st evs).1 := by
  induction evs with
  | nil => intro st h; exact h
  | cons e rest ih =>
    intro st h
    exact ih _ (orchStep_timersInv st e h)

/-- Claim C6 (amended): across any event sequence the progress interval
never runs concurrently with itself — the effect cleanup clears the
registered interval before a new one starts, so at most one interval is
ever live.  (The `FAILED` transition, however, does not stop a running
interval; see the counterexample.) -/
theorem C6_no_concurrent_interval (evs : List OrchEvent) :
    ((runOrch initialOrchState evs).1).timers.live.length ≤ 1 := by
  have h := runOrch_timersInv evs initialOrchState (Or.inl rfl)
  rcases h with h0 | ⟨i, _, hlive⟩
  · simp [h0]
  · simp [hlive]

/-- Counterexample to claim C6 as stated: start the interval, then deliver
a `FAILED` snapshot — the interval is still live afterwards; the `FAILED`
case only clears the thinking indicator. -/
theorem C6_counterexample_failed_keeps_timer :
    ((runOrch initialOrchState
        [OrchEvent.progressEffectFires true,
         OrchEvent.snapshotArrives failedSnap]).1).timers.live ≠ [] := by
  decide

/-! ## Progress simulation -/

theorem progressIncrement_eq : progressIncrement = 2 := by
  norm_num [progressIncrement, buildSteps]

theorem progressIncrement_pos : 0 < progressIncrement := by
  rw [progressIncrement_eq]
  norm_num

theorem runTicks_absorb (f : Nat) (p : ℚ)
    (h : p + progressIncrement ≥ 100) (hf : 1 ≤ f) :
    runTicks f p = ([100], 1) := by
  cases f with
  | zero => omega
  | succ n => simp [runTicks, h]

theorem runTicks_step (f : Nat) (p : ℚ)
    (h : ¬ p + progressIncrement ≥ 100) :
    runTicks (f + 1) p =
      ((p + progressIncrement) :: (runTicks f (p + progressIncrement)).1,
       (runTicks f (p + progressIncrement)).2) := by
  simp [runTicks, h]

theorem runTicks_mem (f : Nat) :
    ∀ q : ℚ, q < 100 → ∀ x ∈ (runTicks f q).1, q < x ∧ x ≤ 100 := by
  induction f with
  | zero =>
    intro q hq x hx
    simp [runTicks] at hx
  | succ f ih =>
    intro q hq x hx
    by_cases hc : q + progressIncrement ≥ 100
    · rw [runTicks_absorb (f + 1) q hc (by omega)] at hx
      simp at hx
      subst hx
      exact ⟨hq, le_refl _⟩
    · rw [runTicks_step f q hc] at hx
      push_neg at hc
      simp only [List.mem_cons] at hx
      rcases hx with rfl | hx
      · exact ⟨by linarith [progressIncrement_pos], by linarith⟩
      · have h2 := ih (q + progressIncrement) (by linarith) x hx
        exact ⟨by linarith [progressIncrement_pos, h2.1], h2.2⟩

theorem runTicks_chain (f : Nat) :
    ∀ q : ℚ, q < 100 → List.Chain' (· ≤ ·) (runTicks f q).1 := by
  induction f with
  | zero =>
    intro q hq
    simp [runTicks]
  | succ f ih =>
    intro q hq
    by_cases hc : q + progressIncrement ≥ 100
    · rw [runTicks_absorb (f + 1) q hc (by omega)]
      simp
    · rw [runTicks_step f q hc]
      push_neg at hc
      refine List.chain'_cons'.mpr ⟨?_, ih (q + progressIncrement) (by linarith)⟩
      intro y hy
      have hmem : y ∈ (runTicks f (q + progressIncrement)).1 :=
        List.mem_of_mem_head? hy
      have hb := runTicks_mem f (q + progressIncrement) (by linarith) y hmem
      linarith [hb.1]

theorem runTicks_finishes (j : Nat) :
    ∀ (q : ℚ) (f : Nat), 100 - q ≤ 2 * j + 2 → j + 1 ≤ f →
      (runTicks f q).1.getLast? = some 100 ∧ (runTicks f q).2 = 1 := by
  induction j with
  | zero =>
    intro q f hb hf
    have habs : q + progressIncrement ≥ 100 := by
      rw [progressIncrement_eq]
      push_cast at hb
      linarith
    rw [runTicks_absorb f q habs hf]
    exact ⟨by simp, rfl⟩
  | succ j ih =>
    intro q f hb hf
    by_cases hc : q + progressIncrement ≥ 100
    · rw [runTicks_absorb f q hc (by omega)]
      exact ⟨by simp, rfl⟩
    · obtain ⟨g, rfl⟩ : ∃ k, f = k + 1 := ⟨f - 1, by omega⟩
      rw [runTicks_step g q hc]
      have hrec := ih (q + progressIncrement) g
        (by rw [progressIncrement_eq]; push_cast at hb ⊢; linarith) (by omega)
      constructor
      · rcases hh : (runTicks g (q + progressIncrement)).1 with _ | ⟨b, l⟩
        · rw [hh] at hrec
          simp at hrec
        · rw [hh] at hrec
          show ((q + progressIncrement) :: b :: l).getLast? = some 100
          rw [List.getLast?_cons_cons]
          exact hrec.1
      · exact hrec.2

/-- Claim C7: once the progress simulation starts (from progress 0, as the
finalization handler resets it), the reported values are non-decreasing
tick by tick, never exceed 100, the final reported value is exactly 100,
and the completion signal fires exactly once — for any tick budget large
enough to let the run finish. -/
theorem C7_progress_monotone_terminates (n : Nat) (hn : 50 ≤ n) :
    List.Chain' (· ≤ ·) (runTicks n 0).1 ∧
    (∀ x ∈ (runTicks n 0).1, x ≤ 100) ∧
    (runTicks n 0).1.getLast? = some 100 ∧
    (runTicks n 0).2 = 1 := by
  have hfin := runTicks_finishes 49 0 n (by norm_num) (by omega)
  refine ⟨runTicks_chain n 0 (by norm_num), ?_, hfin.1, hfin.2⟩
  intro x hx
  exact (runTicks_mem n 0 (by norm_num) x hx).2

/-- Witness for C7 at the minimal sufficient tick budget. -/
theorem C7_witness :
    List.Chain' (· ≤ ·) (runTicks 50 0).1 ∧
    (∀ x ∈ (runTicks 50 0).1, x ≤ 100) ∧
    (runTicks 50 0).1.getLast? = some 100 ∧
    (runTicks 50 0).2 = 1 :=
  C7_progress_monotone_terminates 50 (by decide)

/-! ## Architecture graph -/

/-- Claim C8: the Architecture Graph Builder is deterministic — for the
connection list `["google", "jira"]` the node list and the derived edge
list are the fixed concrete values below (so any two invocations agree
byte for byte), and an unrecognized connection is omitted: prepending it
leaves the generated node list unchanged. -/
theorem C8_graph_deterministic :
    generateGenericArchitecture ["google", "jira"] =
      [mkFlowNode "openai" "OpenAI" "/images/openai-icon.png" "openai" 20 20,
       mkFlowNode "google" "Google" "/images/google-icon.png" "google" 120 20,
       mkFlowNode "jira" "Jira" "/images/jira-icon.png" "jira" 220 20,
       mkFlowNode "memory" "Memory" "/images/memory-icon.png" "memory" 70 80] ∧
    mkApprovalEdges
        ((generateGenericArchitecture ["google", "jira"]).map FlowNode.id) =
      [{ id := "google-openai", source := "google", target := "openai",
         type := "custom", stroke := "#6B7280", strokeWidth := 3 },
       { id := "jira-openai", source := "jira", target := "openai",
         type := "custom", stroke := "#6B7280", strokeWidth := 3 },
       { id := "memory-openai", source := "memory", target := "openai",
         type := "custom", stroke := "#6B7280", strokeWidth := 3 },
       { id := "openai-memory", source := "openai", target := "memory",
         type := "custom", stroke := "#6B7280", strokeWidth := 3 },
       { id := "google-memory", source := "google", target := "memory",
         type := "custom", stroke := "#6B7280", strokeWidth := 3 },
       { id := "jira-memory", source := "jira", target := "memory",
         type := "custom", stroke := "#6B7280", strokeWidth := 3 }] ∧
    ∀ (c : String) (conns : List String),
      c ∉ (["google", "jira", "slack"] : List String) →
        generateGenericArchitecture (c :: conns) =
          generateGenericArchitecture conns := by
  refine ⟨by decide, by decide, ?_⟩
  intro c conns hc
  have hg : ¬ ("google" = c) := fun h => hc (by simp [h.symm])
  have hj : ¬ ("jira" = c) := fun h => hc (by simp [h.symm])
  have hs : ¬ ("slack" = c) := fun h => hc (by simp [h.symm])
  simp [generateGenericArchitecture, List.contains_cons, hg, hj, hs]

/-- Witness for C8: prepending the unrecognized connection `zendesk`
leaves the generated graph unchanged. -/
theorem C8_witness :
    generateGenericArchitecture ("zendesk" :: ["google"]) =
      generateGenericArchitecture ["google"] :=
  C8_graph_deterministic.2.2 "zendesk" ["google"] (by decide)

/-! ## Transport failures -/

/-- Claim C9: a transport failure (network error or non-2xx response) on
the create, continue (message or credentials), or upload call leaves the
stored `BuildSession` snapshot unchanged — no partial or failed response is
merged. -/
theorem C9_transport_failure_preserves_session (prompt : String)
    (cur : Option BuildSession) (st : BuildViewState) :
    (startBuild prompt cur (Except.error ())).1 = cur ∧
    ((handleSendMessage st (Except.error ())).1).buildSession
        = st.buildSession ∧
    ((handleConnectionSubmit st (Except.error ())).1).buildSession
        = st.buildSession ∧
    ((handleFileUpload st (Except.error ())).1).buildSession
        = st.buildSession := by
  refine ⟨?_, ?_, ?_, ?_⟩
  · unfold startBuild
    split <;> rfl
  · unfold handleSendMessage
    split
    · rfl
    · split <;> rfl
  · unfold handleConnectionSubmit
    split <;> rfl
  · unfold handleFileUpload
    split <;> rfl
